import Mathlib

/-!
Shallow embedding of the `agent-sdk-docs` documentation repository:
the sidebar definition file (`sidebars.ts`), the site configuration file
(`docusaurus.config.ts`), the markdown content pages with their YAML
frontmatter, and the facts about the code snippets embedded in the pages
that the verified properties refer to.
-/

namespace AgentSdkDocs

/-! ## Sidebar definition file (`sidebars.ts`) -/

/-- An entry of a sidebar tree. In the sidebar definition file every entry is
either a doc entry (a document ID, given either as a plain string shorthand or
as an object with an explicit `label`), or a category with a `label`, an
optional `collapsed` flag and a list of document IDs (in this file every
category item is a plain string shorthand). -/
inductive SidebarItem where
  | doc (id : String) (label : Option String) : SidebarItem
  | category (label : String) (collapsed : Option Bool) (ids : List String) : SidebarItem
deriving DecidableEq, Repr

/-- The `tutorialSidebar` tree of the sidebar definition file. -/
def tutorialSidebar : List SidebarItem :=
  [ .doc "overview" (some "What is Build AI Agent?"),
    .doc "intro" none,
    .doc "installation" none,
    .doc "quick-start" none,
    .category "Core Concepts" (some false) ["concepts/agents", "concepts/tools"],
    .category "Tutorials" none ["tutorials/building-chatbot"],
    .category "Examples" none ["examples/chatbot"],
    .doc "glossary" (some "Glossary") ]

/-- The `apiSidebar` tree of the sidebar definition file. -/
def apiSidebar : List SidebarItem :=
  [ .doc "api/overview" none,
    .category "Core API" none ["api/agent-builder", "api/agent-executor"] ]

/-- The `sidebars` object exported by the sidebar definition file: keys are the
sidebar IDs, values the corresponding trees. -/
def sidebars : List (String × List SidebarItem) :=
  [("tutorialSidebar", tutorialSidebar), ("apiSidebar", apiSidebar)]

/-- The document IDs an entry contributes to its sidebar. -/
def SidebarItem.docIds : SidebarItem → List String
  | .doc i _ => [i]
  | .category _ _ ids => ids

/-- The category label of an entry, if it is a category. -/
def SidebarItem.categoryLabel : SidebarItem → Option String
  | .doc _ _ => none
  | .category l _ _ => some l

/-- All document IDs of one sidebar tree, in order. -/
def sidebarDocIds (t : List SidebarItem) : List String :=
  t.flatMap SidebarItem.docIds

/-- All document IDs appearing in the `sidebars` object, in order. -/
def allSidebarDocIds : List String :=
  (sidebars.map Prod.snd).flatMap sidebarDocIds

/-- All category labels declared in the `sidebars` object, in order. -/
def allCategoryLabels : List String :=
  (sidebars.map Prod.snd).flatMap (fun t => t.filterMap SidebarItem.categoryLabel)

/-- The keys of the `sidebars` object. -/
def sidebarKeys : List String := sidebars.map Prod.fst

/-! ## Markdown content pages and their frontmatter -/

/-- The YAML frontmatter block of a markdown page: each of the three fields the
site generator reads may be present or absent. -/
structure Frontmatter where
  sidebar_position : Option Nat
  title : Option String
  description : Option String
deriving DecidableEq, Repr

/-- A markdown content page: its document ID (the path of the file relative to
the docs root, without extension) and its frontmatter. -/
structure MarkdownPage where
  id : String
  frontmatter : Frontmatter
deriving DecidableEq, Repr

/-- `docs/intro.md`: frontmatter has only `sidebar_position: 1`. -/
def introPage : MarkdownPage := ⟨"intro", ⟨some 1, none, none⟩⟩

/-- `docs/overview.md`: frontmatter has all three fields. -/
def overviewPage : MarkdownPage :=
  ⟨"overview",
   ⟨some 1, some "What is Build AI Agent SDK?",
    some "Overview of the Build AI Agent SDK, its architecture, and why it exists"⟩⟩

/-- `docs/glossary.md`: frontmatter has all three fields. -/
def glossaryPage : MarkdownPage :=
  ⟨"glossary",
   ⟨some 100, some "Glossary",
    some "Definitions of key terms and concepts in Build AI Agent SDK"⟩⟩

/-- `docs/concepts/tools.md`: frontmatter has only `sidebar_position: 2`. -/
def conceptsToolsPage : MarkdownPage := ⟨"concepts/tools", ⟨some 2, none, none⟩⟩

/-- The quick-start page: frontmatter has only `sidebar_position: 3`. -/
def quickStartPage : MarkdownPage := ⟨"quick-start", ⟨some 3, none, none⟩⟩

/-- The simple-chatbot example page: frontmatter has only `sidebar_position: 1`. -/
def examplesChatbotPage : MarkdownPage := ⟨"examples/chatbot", ⟨some 1, none, none⟩⟩

/-- The API overview page: frontmatter has only `sidebar_position: 1`. -/
def apiOverviewPage : MarkdownPage := ⟨"api/overview", ⟨some 1, none, none⟩⟩

/-- The AgentBuilder reference page: frontmatter has all three fields. -/
def agentBuilderPage : MarkdownPage :=
  ⟨"api/agent-builder",
   ⟨some 1, some "AgentBuilder", some "Complete API reference for the AgentBuilder class"⟩⟩

/-- The AgentExecutor reference page: frontmatter has all three fields. -/
def agentExecutorPage : MarkdownPage :=
  ⟨"api/agent-executor",
   ⟨some 2, some "AgentExecutor", some "Complete API reference for the AgentExecutor class"⟩⟩

/-- The markdown content pages present among the captured sources. -/
def repoPages : List MarkdownPage :=
  [introPage, overviewPage, glossaryPage, conceptsToolsPage, quickStartPage,
   examplesChatbotPage, apiOverviewPage, agentBuilderPage, agentExecutorPage]

/-- Modelled from the spec: the markdown source files for the sidebar document
IDs `installation`, `concepts/agents` and `tutorials/building-chatbot` are
referenced by the sidebar definition file but are not among the captured
sources. The spec states that every sidebar document ID resolves to an
existing markdown file (a check the build is configured to enforce), so these
three page IDs are taken to belong to existing markdown files. -/
def specModelledPageIds : List String :=
  ["installation", "concepts/agents", "tutorials/building-chatbot"]

/-- The page IDs of all markdown files of the repository: the captured pages
plus the three spec-modelled ones. -/
def existingPageIds : List String :=
  repoPages.map MarkdownPage.id ++ specModelledPageIds

/-! ## Site configuration file (`docusaurus.config.ts`) -/

/-- A navigation-bar entry: either a `docSidebar` item referencing a sidebar ID,
or a plain hyperlink item. -/
inductive NavbarItem where
  | docSidebarItem (sidebarId : String) (position : String) (label : String) : NavbarItem
  | hrefItem (href : String) (label : String) (position : String) : NavbarItem
deriving DecidableEq, Repr

/-- The navbar logo declaration. -/
structure Logo where
  alt : String
  src : String
deriving DecidableEq, Repr

/-- The navbar declaration of the theme configuration. -/
structure Navbar where
  title : String
  logo : Logo
  items : List NavbarItem
deriving DecidableEq, Repr

/-- A footer link: either an internal `to` target or an external `href`. -/
inductive FooterItem where
  | toItem (label : String) (target : String) : FooterItem
  | hrefItem (label : String) (href : String) : FooterItem
deriving DecidableEq, Repr

/-- A titled group of footer links. -/
structure FooterLinkGroup where
  title : String
  items : List FooterItem
deriving DecidableEq, Repr

/-- The footer declaration of the theme configuration. -/
structure Footer where
  style : String
  links : List FooterLinkGroup
deriving DecidableEq, Repr

/-- The syntax-highlighting (prism) declaration: the light and dark theme names
and the additional languages. -/
structure Prism where
  theme : String
  darkTheme : String
  additionalLanguages : List String
deriving DecidableEq, Repr

/-- The theme configuration of the site configuration file. -/
structure ThemeConfig where
  image : String
  respectPrefersColorScheme : Bool
  navbar : Navbar
  footer : Footer
  prism : Prism
deriving DecidableEq, Repr

/-- The site configuration object (the fields of `docusaurus.config.ts` the
verified properties refer to). -/
structure Config where
  title : String
  tagline : String
  favicon : String
  url : String
  baseUrl : String
  organizationName : String
  projectName : String
  onBrokenLinks : String
  defaultLocale : String
  locales : List String
  themeConfig : ThemeConfig
deriving DecidableEq, Repr

/-- The `config` object exported by `docusaurus.config.ts`. -/
def config : Config :=
  { title := "Build AI Agent SDK"
    tagline := "Framework-agnostic SDK for building intelligent AI agents"
    favicon := "img/favicon.ico"
    url := "https://linuxdevil.github.io"
    baseUrl := "/agent-sdk-docs/"
    organizationName := "LinuxDevil"
    projectName := "agent-sdk-docs"
    onBrokenLinks := "throw"
    defaultLocale := "en"
    locales := ["en"]
    themeConfig :=
      { image := "img/docusaurus-social-card.jpg"
        respectPrefersColorScheme := true
        navbar :=
          { title := "Build AI Agent"
            logo := { alt := "Build AI Agent Logo", src := "img/logo.svg" }
            items :=
              [ .docSidebarItem "tutorialSidebar" "left" "Docs",
                .docSidebarItem "apiSidebar" "left" "API",
                .hrefItem "https://github.com/LinuxDevil/agent-sdk" "GitHub" "right",
                .hrefItem "https://www.npmjs.com/package/@tajwal/build-ai-agent" "npm" "right" ] }
        footer :=
          { style := "dark"
            links :=
              [ { title := "Docs"
                  items :=
                    [ .toItem "Getting Started" "/docs/intro",
                      .toItem "API Reference" "/docs/api/overview",
                      .toItem "Examples" "/docs/examples/chatbot" ] },
                { title := "More"
                  items := [ .hrefItem "GitHub" "https://github.com/LinuxDevil/agent-sdk" ] } ] }
        prism :=
          { theme := "github"
            darkTheme := "dracula"
            additionalLanguages := ["bash", "typescript", "javascript", "json"] } } }

/-- The sidebar IDs referenced by the `docSidebar` items of the navbar. -/
def navbarSidebarIds : List String :=
  config.themeConfig.navbar.items.filterMap fun i =>
    match i with
    | .docSidebarItem sid _ _ => some sid
    | .hrefItem _ _ _ => none

/-- The internal `to` targets of the footer groups titled `Docs`. -/
def footerDocsTargets : List String :=
  (config.themeConfig.footer.links.filter (fun g => g.title == "Docs")).flatMap fun g =>
    g.items.filterMap fun it =>
      match it with
      | .toItem _ t => some t
      | .hrefItem _ _ => none

/-- The document ID addressed by an internal docs route: the route with its
leading `/docs/` segment removed. -/
def docIdOfRoute (s : String) : String :=
  match s.data with
  | '/' :: 'd' :: 'o' :: 'c' :: 's' :: '/' :: rest => ⟨rest⟩
  | _ => s

/-! ## Facts about code embedded in the markdown pages -/

/-- The `AgentType` member accessed by the agent-construction snippet of the
chatbot example page: `.setType(AgentType.Chatbot)`. -/
def chatbotExampleAgentTypeMember : String := "Chatbot"

/-- The members of `enum AgentType` as defined in the type-definitions snippet
of the AgentBuilder reference page, with their string values. -/
def agentBuilderAgentTypeMembers : List (String × String) :=
  [("SmartAssistant", "smart-assistant"), ("SurveyAgent", "survey-agent"),
   ("CommerceAgent", "commerce-agent"), ("Flow", "flow")]

/-- The top-level declarations of `docusaurus.config.ts`: the single constant
`config`. The file declares no types. -/
def docusaurusConfigDeclarations : List String := ["config"]

/-- The top-level declarations of the sidebar definition file: the single
constant `sidebars`. The file declares no types. -/
def sidebarsFileDeclarations : List String := ["sidebars"]

/-- The SDK type names that appear in code snippets of the markdown pages. -/
def sdkTypeNames : List String :=
  ["AgentConfig", "Message", "ToolCall", "ExecutionResult"]

/-- The published site URL stated in the Deployment section of the README. -/
def readmeDeploymentUrl : String := "https://linuxdevil.github.io/agent-sdk-docs/"

/-! ## Theorems -/

/-- Claim C1: every document ID that appears in the sidebar configuration
(both trees, IDs nested inside categories included) is the page ID of a
markdown file of the repository. -/
theorem sidebar_doc_ids_resolve :
    allSidebarDocIds.all (fun i => existingPageIds.contains i) = true := by decide

/-- Claim C2: the site configuration object sets its `onBrokenLinks` field to
the value `throw`. -/
theorem onBrokenLinks_is_throw : config.onBrokenLinks = "throw" := rfl

/-- Claim C3, counterexample: `API Reference` is not among the category labels
declared by the sidebar configuration, refuting the claim that the declared
category labels include `Core Concepts`, `Tutorials`, `Examples` and
`API Reference`. -/
theorem api_reference_not_a_category_label :
    allCategoryLabels.contains "API Reference" = false := by decide

/-- Claim C3, amended: the sidebar configuration declares an ordered tree of
document IDs grouped into categories, and the category labels it declares are
exactly `Core Concepts`, `Tutorials`, `Examples` and `Core API`. -/
theorem category_labels_exact :
    allCategoryLabels = ["Core Concepts", "Tutorials", "Examples", "Core API"] := rfl

/-- Claim C4: the `AgentType` member used on the chatbot example page
(`Chatbot`) is not among the members of the `AgentType` enum defined on the
AgentBuilder reference page, whose members are exactly `SmartAssistant`,
`SurveyAgent`, `CommerceAgent` and `Flow`. -/
theorem agent_type_values_differ_across_pages :
    agentBuilderAgentTypeMembers.map Prod.fst
        = ["SmartAssistant", "SurveyAgent", "CommerceAgent", "Flow"]
      ∧ (agentBuilderAgentTypeMembers.map Prod.fst).contains
          chatbotExampleAgentTypeMember = false := by decide

/-- Claim C5, counterexample: the intro page is a markdown content page of the
repository whose frontmatter block contains neither a `title` nor a
`description` field, refuting the claim that every page carries all of
`sidebar_position`, `title` and `description`. -/
theorem intro_page_frontmatter_incomplete :
    introPage ∈ repoPages
      ∧ introPage.frontmatter.title = none
      ∧ introPage.frontmatter.description = none := by decide

/-- Claim C5, amended: every markdown content page carries a YAML frontmatter
block containing `sidebar_position`; `title` and `description` appear only on
some pages (the overview, glossary, AgentBuilder and AgentExecutor pages). -/
theorem all_pages_have_sidebar_position :
    repoPages.all (fun p => p.frontmatter.sidebar_position.isSome) = true
      ∧ repoPages.filter
          (fun p => p.frontmatter.title.isSome && p.frontmatter.description.isSome)
        = [overviewPage, glossaryPage, agentBuilderPage, agentExecutorPage] := by decide

/-- Claim C6: the site configuration file declares a title, a tagline, a base
URL, an organization name and a project name for hosting, a nonempty list of
navigation bar entries, a nonempty list of footer link groups, and a
syntax-highlighting theme selection. -/
theorem config_declares_site_metadata :
    config.title = "Build AI Agent SDK"
      ∧ config.tagline = "Framework-agnostic SDK for building intelligent AI agents"
      ∧ config.url = "https://linuxdevil.github.io"
      ∧ config.baseUrl = "/agent-sdk-docs/"
      ∧ config.organizationName = "LinuxDevil"
      ∧ config.projectName = "agent-sdk-docs"
      ∧ config.themeConfig.navbar.items ≠ []
      ∧ config.themeConfig.footer.links ≠ []
      ∧ config.themeConfig.prism.theme = "github"
      ∧ config.themeConfig.prism.darkTheme = "dracula" := by decide

/-- Claim C7: none of the SDK type names `AgentConfig`, `Message`, `ToolCall`
and `ExecutionResult` is declared by either non-markdown source file (the site
configuration file or the sidebar definition file): each declares a single
constant and no types. -/
theorem sdk_types_not_declared_outside_markdown :
    sdkTypeNames.all
      (fun n => !docusaurusConfigDeclarations.contains n
        && !sidebarsFileDeclarations.contains n) = true := by decide

/-- Claim C8: every sidebar ID referenced by a `docSidebar` navbar item of the
site configuration is a key of the `sidebars` object exported by the sidebar
definition file. -/
theorem navbar_sidebar_ids_are_sidebar_keys :
    navbarSidebarIds.all (fun sid => sidebarKeys.contains sid) = true
      ∧ navbarSidebarIds = ["tutorialSidebar", "apiSidebar"] := by decide

/-- Claim C9: the published site URL stated in the README equals the
concatenation of the `url` and `baseUrl` fields of the site configuration. -/
theorem readme_url_matches_config : readmeDeploymentUrl = config.url ++ config.baseUrl := rfl

/-- Claim C10: for every footer link under the `Docs` footer section, the
document ID obtained by stripping the leading `/docs/` from its target appears
as a document ID in the sidebars configuration. -/
theorem footer_docs_links_resolve_in_sidebars :
    (footerDocsTargets.map docIdOfRoute).all
      (fun i => allSidebarDocIds.contains i) = true := by decide

end AgentSdkDocs
